import Mathlib

/-!
Shallow embedding of the ranking / delta / comparison-assembly core of the
Institutional Complexity Index dashboard (`app.py`, `update_load_data.py`,
`src/data_loader.py`, `src/components/metrics.py`, `src/components/charts.py`,
`src/components/sidebar.py`).

Conventions of the embedding:
* a pandas `DataFrame` of table rows is a `List Observation`;
* nullable float cells are `Option ℚ` (index values are exact decimals in the
  source data, so rationals model them faithfully for ordering and
  subtraction); a Python `None` / SQL `NULL` / pandas `NaN` cell is `none`;
* Python exceptions raised while extracting a value (e.g. `.values[0]` on an
  empty selection, `int(nan)`) are modelled by an `Option` result being `none`;
* Python truthiness tests on optional lists / strings / ints are modelled
  explicitly (`[]`, `""`, `None` and `0` are falsy).
-/

namespace ICI

/-- One row of the `dados_indice_complexidade_institucional` table
(schema from `update_load_data.py` / `db.py`): country name and ISO-3 code,
the year, the six nullable index columns and the dimension counter. -/
structure Observation where
  country_name : String
  country_cod : String
  year : Int
  indice_socio_cultural : Option ℚ
  indice_mercados_negocios : Option ℚ
  indice_empreendedorismo : Option ℚ
  indice_eficiencia_governo : Option ℚ
  indice_ambiente_juridico : Option ℚ
  indice_total : Option ℚ
  n_dims_ok : Int
deriving DecidableEq, Repr

/-- The six index columns iterated by `render_metrics` in
`src/components/metrics.py` (the `indices` list there). -/
def indices : List (Observation → Option ℚ) :=
  [Observation.indice_socio_cultural,
   Observation.indice_mercados_negocios,
   Observation.indice_empreendedorismo,
   Observation.indice_eficiencia_governo,
   Observation.indice_ambiente_juridico,
   Observation.indice_total]

/-- The five component index columns plotted by `render_radar_chart` in
`src/components/charts.py` (the `indices` list there, without the total). -/
def radarIndices : List (Observation → Option ℚ) :=
  [Observation.indice_socio_cultural,
   Observation.indice_mercados_negocios,
   Observation.indice_empreendedorismo,
   Observation.indice_eficiencia_governo,
   Observation.indice_ambiente_juridico]

/-! ### The load_complexity_data query (`update_load_data.py` lines 49-86 and
`src/data_loader.py` lines 18-60)

Both loaders build the same query: optional `IN` filters on `country_name`
and `year` — applied only when the argument is truthy, i.e. neither `None`
nor an empty list — followed by `ORDER BY country_name, year` (ascending). -/

/-- Ordering key used by `ORDER BY country_name, year`: lexicographic on
(country_name, year), both ascending.  Country names compare by the
lexicographic order of their character lists — exactly core `String.lt`
and the store's collation on these plain ASCII names. -/
def obsKeyLE (a b : Observation) : Prop :=
  a.country_name.data < b.country_name.data ∨
    (a.country_name = b.country_name ∧ a.year ≤ b.year)

instance : DecidableRel obsKeyLE := fun a b =>
  inferInstanceAs (Decidable (a.country_name.data < b.country_name.data ∨
    (a.country_name = b.country_name ∧ a.year ≤ b.year)))

instance : IsTotal Observation obsKeyLE := by
  constructor
  intro a b
  rcases lt_trichotomy a.country_name.data b.country_name.data with h | h | h
  · exact Or.inl (Or.inl h)
  · rcases le_total a.year b.year with hy | hy
    · exact Or.inl (Or.inr ⟨String.ext h, hy⟩)
    · exact Or.inr (Or.inr ⟨(String.ext h).symm, hy⟩)
  · exact Or.inr (Or.inl h)

instance : IsTrans Observation obsKeyLE := by
  constructor
  intro a b c hab hbc
  rcases hab with hab | ⟨hab, hay⟩
  · rcases hbc with hbc | ⟨hbc, _⟩
    · exact Or.inl (hab.trans hbc)
    · exact Or.inl (hbc ▸ hab)
  · rcases hbc with hbc | ⟨hbc, hby⟩
    · exact Or.inl (hab ▸ hbc)
    · exact Or.inr ⟨hab.trans hbc, hay.trans hby⟩

/-- Python truthiness of an optional list argument: `None` and `[]` are
falsy (`if countries:` / `if years:` in both loaders). -/
def listTruthy {α : Type} : Option (List α) → Bool
  | none => false
  | some l => !l.isEmpty

/-- The pure part of `load_complexity_data`: apply the `country_name IN`
filter when `countries` is truthy, the `year IN` filter when `years` is
truthy, then sort by `(country_name, year)` ascending (the `ORDER BY`).
`db` is the full table snapshot held by the external store. -/
def load_complexity_data (db : List Observation)
    (countries : Option (List String)) (years : Option (List Int)) :
    List Observation :=
  let afterCountries :=
    if listTruthy countries then
      db.filter (fun r => (countries.getD []).contains r.country_name)
    else db
  let afterYears :=
    if listTruthy years then
      afterCountries.filter (fun r => (years.getD []).contains r.year)
    else afterCountries
  List.insertionSort obsKeyLE afterYears

/-! ### Store states and the fetch boundary (`update_load_data.py`)

`update_load_data.py` initializes one Supabase client at import time; every
loader first checks `if not supabase_client`, then runs the query in a
`try/except`.  We model the three observable situations. -/

/-- State of the external store as seen by one call: the client was never
connected, the query raises (transport failure / timeout), or the query
succeeds against the snapshot `rows`. -/
inductive StoreState where
  | disconnected : StoreState
  | failing : StoreState
  | ok (rows : List Observation) : StoreState

/-- Result of a loader call: whether `st.error` was shown, and the data the
caller actually receives. -/
structure LoadResult where
  errorShown : Bool
  data : List Observation
deriving DecidableEq, Repr

/-- Result of `get_year_range`: whether `st.error` was shown, and the
`(min_year, max_year)` pair the caller actually receives. -/
structure YearRangeResult where
  errorShown : Bool
  bounds : Int × Int
deriving DecidableEq, Repr

/-- `load_complexity_data` including its error paths
(`update_load_data.py` lines 68-86): with no client it shows an error and
returns an empty DataFrame; if the query raises it shows an error and
returns an empty DataFrame; otherwise it returns the filtered, ordered
rows. -/
def load_complexity_data_io (s : StoreState)
    (countries : Option (List String)) (years : Option (List Int)) :
    LoadResult :=
  match s with
  | .disconnected => ⟨true, []⟩
  | .failing => ⟨true, []⟩
  | .ok rows => ⟨false, load_complexity_data rows countries years⟩

/-- `get_year_range` (`update_load_data.py` lines 112-132): with no client
it shows an error and returns the fixed pair `(2015, 2023)`; if the query
raises it shows an error and returns `(2015, 2023)`; if the table is empty
it returns `(2015, 2023)` silently; otherwise it returns the minimum and
maximum of the `year` column. -/
def get_year_range_io (s : StoreState) : YearRangeResult :=
  match s with
  | .disconnected => ⟨true, (2015, 2023)⟩
  | .failing => ⟨true, (2015, 2023)⟩
  | .ok rows =>
    match rows.map Observation.year with
    | [] => ⟨false, (2015, 2023)⟩
    | y :: ys => ⟨false, (ys.foldl min y, ys.foldl max y)⟩

/-! ### Ranking engine (`src/components/metrics.py` lines 32-43)

`render_metrics` computes, per index column,
`df[idx].rank(ascending=False, method="min")` and reads off the selected
country's value.  Pandas `rank(method="min", ascending=False)` sorts the
non-null column values in descending order and assigns to each value one
plus the position of its first occurrence in that sorted list (null cells
keep a null rank and are skipped by the sort). -/

/-- Position of the first occurrence of `v` in `l` (the number of entries
strictly before the group of `v` in a sorted column). -/
def firstPos (v : ℚ) : List ℚ → Nat
  | [] => 0
  | w :: l => if w = v then 0 else firstPos v l + 1

/-- Descending comparison used by `ascending=False`. -/
def qGE (a b : ℚ) : Prop := b ≤ a

instance : DecidableRel qGE := fun a b => inferInstanceAs (Decidable (b ≤ a))

instance : IsTotal ℚ qGE := ⟨fun a b => (le_total b a).imp id id⟩

instance : IsTrans ℚ qGE := ⟨fun _ _ _ hab hbc => le_trans hbc hab⟩

/-- The non-null cells of one index column, in row order
(pandas drops NaN cells from rank computation). -/
def nonNullValues (df : List Observation) (idx : Observation → Option ℚ) :
    List ℚ :=
  df.filterMap idx

/-- Pandas `rank(ascending=False, method="min")` of the value `v` within the
non-null column `vals`: sort descending, then one plus the position of the
first occurrence of `v`. -/
def pandasRankMinDesc (vals : List ℚ) (v : ℚ) : Nat :=
  firstPos v (List.insertionSort qGE vals) + 1

/-- The `rank_{idx}` cell of one row: null cells keep a null rank. -/
def rankColumn (df : List Observation) (idx : Observation → Option ℚ)
    (row : Observation) : Option Nat :=
  (idx row).map (fun v => pandasRankMinDesc (nonNullValues df idx) v)

/-- `total_countries = len(df_all_latest)` (`metrics.py` line 42): the row
count of the whole one-year slice, null cells included. -/
def total_countries (df : List Observation) : Nat := df.length

/-- The rows of a slice that actually receive a (non-null) rank for `idx`. -/
def rankedEntries (df : List Observation) (idx : Observation → Option ℚ) :
    List Observation :=
  df.filter (fun r => (idx r).isSome)

/-- The selected country's rank in a one-year slice (`metrics.py` lines
37-41): take the first row whose `country_name` matches and read its rank
cell.  `.values[0]` on an empty selection raises `IndexError`, and
`int(...)` on a null rank raises; both error paths are `none`. -/
def currentRank (dfAll : List Observation) (idx : Observation → Option ℚ)
    (sel : String) : Option Nat :=
  ((dfAll.filter (fun r => r.country_name = sel)).head?).bind
    (fun row => rankColumn dfAll idx row)

/-! ### Delta engine (`app.py` lines 162-197 and
`src/components/metrics.py` lines 44-74) -/

/-- Value delta of `render_metrics` in `app.py`: when the filtered series
has more than one row, `iloc[-1][idx] - iloc[-2][idx]`; otherwise `None`.
A null operand (pandas NaN arithmetic) also yields an undefined result. -/
def value_delta (dfMainFiltered : List Observation)
    (idx : Observation → Option ℚ) : Option ℚ :=
  if 1 < dfMainFiltered.length then
    match dfMainFiltered.getLast?, dfMainFiltered.dropLast.getLast? with
    | some lastRow, some prevRow =>
      match idx lastRow, idx prevRow with
      | some a, some b => some (a - b)
      | _, _ => none
    | _, _ => none
  else none

/-- One-year slice loaded by `render_metrics` in `metrics.py`:
`load_complexity_data(years=[year])`. -/
def sliceYear (db : List Observation) (y : Int) : List Observation :=
  load_complexity_data db none (some [y])

/-- Rank delta of `render_metrics` in `metrics.py`: rank the latest-year
slice and read the selected country's rank; when the filtered series has
more than one row, also rank the previous-year slice and subtract
(`delta_val = rank - rankings_previous[idx]`, line 72).  The display guard
`if previous_year and ...` makes a year equal to `0` falsy.  Any lookup
failure (country absent, null cell) is an error path, hence `none`. -/
def metrics_rank_delta (db : List Observation)
    (dfMainFiltered : List Observation) (sel : String)
    (idx : Observation → Option ℚ) : Option Int :=
  match dfMainFiltered.getLast? with
  | none => none
  | some lastRow =>
    match currentRank (sliceYear db lastRow.year) idx sel with
    | none => none
    | some cur =>
      if 1 < dfMainFiltered.length then
        match dfMainFiltered.dropLast.getLast? with
        | none => none
        | some prevRow =>
          if prevRow.year ≠ 0 then
            match currentRank (sliceYear db prevRow.year) idx sel with
            | none => none
            | some prev => some ((cur : Int) - (prev : Int))
          else none
      else none

/-! ### Sidebar and dashboard assembly (`app.py` lines 112-159 and
1156-1178, `src/components/sidebar.py` lines 8-59) -/

/-- Python truthiness of the selectbox result: `None` (nothing chosen) and
the empty string are falsy. -/
def strTruthy : Option String → Bool
  | none => false
  | some s => s != ""

/-- Option list of the comparison multiselect
(`options=[c for c in countries if c != selected_country]`,
`sidebar.py` line 27 / `app.py` line 127): every country except the
currently selected main country. -/
def sidebar_comparison_options (countries : List String)
    (sel : Option String) : List String :=
  countries.filter (fun c => some c ≠ sel)

/-- `tuple(range(year_range[0], year_range[1] + 1))` (`app.py` line 1175). -/
def rangeYears (lo hi : Int) : List Int :=
  (List.range (hi + 1 - lo).toNat).map (fun i => lo + (i : Int))

/-- The sequence of fetch calls the Dashboard page issues
(`app.py` lines 1156-1178), each recorded as its
`(countries, years)` argument pair.  With no main country selected the page
returns after an info message, fetching nothing.  Otherwise it always
fetches `get_country_data(selected)` — i.e. `countries=[selected]` — and,
when the comparison list is truthy, additionally fetches
`countries=[selected] + comparison_countries` over the year range.
No validation of the comparison list happens on this path. -/
def dashboard_fetch_calls (selected : Option String)
    (comparison : List String) (yearRange : Int × Int) :
    List (Option (List String) × Option (List Int)) :=
  if strTruthy selected then
    let sel := selected.getD ""
    let firstCall : Option (List String) × Option (List Int) :=
      (some [sel], none)
    if comparison.isEmpty then [firstCall]
    else
      [firstCall,
       (some (sel :: comparison), some (rangeYears yearRange.1 yearRange.2))]
  else []

/-! ### Radar chart cross-section (`src/components/charts.py` lines
236-293) -/

/-- One plotted radar polygon: the country label and its `r` values (the
five component indices with the first repeated to close the polygon; a null
cell stays null, pandas NaN). -/
structure RadarTrace where
  country : String
  rValues : List (Option ℚ)
deriving DecidableEq, Repr

/-- The traces drawn by `render_radar_chart` in overlay mode: for each
country of `countries_to_compare`, slice `df_comparison` to that country
and the selected year; a country whose slice is empty contributes no trace
(`if not df_country_year.empty:` line 246), otherwise the first matching
row's five index cells (first value repeated at the end) become its
polygon. -/
def radar_traces (dfComparison : List Observation)
    (countriesToCompare : List String) (selectedYear : Int) :
    List RadarTrace :=
  countriesToCompare.filterMap (fun c =>
    match (dfComparison.filter
        (fun r => r.country_name = c ∧ r.year = selectedYear)).head? with
    | none => none
    | some row =>
      let vals := radarIndices.map (fun idx => idx row)
      some ⟨c, vals ++ vals.take 1⟩)

/-! ### Concrete data used to instantiate the theorems

Scenario data following §8 of the design document: Brazil, Chile and Peru
around 2022/2023, plus a fully null row and a zero-valued row. -/

/-- A row whose six index cells all hold the same non-null value. -/
def mkObs (name code : String) (y : Int) (v : ℚ) : Observation :=
  ⟨name, code, y, some v, some v, some v, some v, some v, some v, 5⟩

/-- A row whose six index cells are all null. -/
def mkNullObs (name code : String) (y : Int) : Observation :=
  ⟨name, code, y, none, none, none, none, none, none, 0⟩

/-- Demo snapshot: Brazil 62 → 65, Chile 70 → 65, Peru only in 2023 at 60. -/
def demoDb : List Observation :=
  [mkObs "Brazil" "BRA" 2022 62, mkObs "Brazil" "BRA" 2023 65,
   mkObs "Chile" "CHL" 2022 70, mkObs "Chile" "CHL" 2023 65,
   mkObs "Peru" "PER" 2023 60]

/-- Brazil's filtered per-country series from `demoDb`. -/
def demoBrazil : List Observation :=
  [mkObs "Brazil" "BRA" 2022 62, mkObs "Brazil" "BRA" 2023 65]

/-- A one-year slice containing a null-valued row next to a ranked row. -/
def demoNullSlice : List Observation :=
  [mkObs "Brazil" "BRA" 2023 65, mkNullObs "Fiji" "FJI" 2023]

/-- Snapshot whose year column spans exactly 2015 to 2023. -/
def demoSpanDb : List Observation :=
  [mkObs "Brazil" "BRA" 2015 60, mkObs "Brazil" "BRA" 2023 65]

/-- Comparison slice for the radar chart: Brazil (65) and a zero-valued
Chad row at 2023; Fiji has no 2023 row. -/
def demoRadarDf : List Observation :=
  [mkObs "Brazil" "BRA" 2023 65, mkObs "Chad" "TCD" 2023 0]

/-! ### Ranking lemmas -/

/-- In a descending-sorted list the position of the first occurrence of a
member `v` equals the number of entries strictly greater than `v`. -/
theorem firstPos_sorted_eq_countP (v : ℚ) :
    ∀ l : List ℚ, l.Sorted qGE → v ∈ l →
      firstPos v l = l.countP (fun w => decide (v < w)) := by
  intro l
  induction l with
  | nil => intro _ hv; cases hv
  | cons w l ih =>
    intro hs hv
    rw [List.sorted_cons] at hs
    by_cases hw : w = v
    · have hzero : l.countP (fun w => decide (v < w)) = 0 := by
        rw [List.countP_eq_zero]
        intro u hu
        have : u ≤ w := hs.1 u hu
        simpa using hw ▸ this
      simp [firstPos, hw, List.countP_cons, hzero]
    · have hvl : v ∈ l := by
        rcases List.mem_cons.mp hv with h | h
        · exact absurd h.symm hw
        · exact h
      have hvw : v < w := lt_of_le_of_ne (hs.1 v hvl) (fun h => hw h.symm)
      rw [List.countP_cons]
      simp [firstPos, hw, ih hs.2 hvl, hvw]

/-- The first-occurrence position of a member is a valid index. -/
theorem firstPos_lt_length (v : ℚ) :
    ∀ l : List ℚ, v ∈ l → firstPos v l < l.length := by
  intro l
  induction l with
  | nil => intro hv; cases hv
  | cons w l ih =>
    intro hv
    by_cases hw : w = v
    · simp [firstPos, hw]
    · have hvl : v ∈ l := by
        rcases List.mem_cons.mp hv with h | h
        · exact absurd h.symm hw
        · exact h
      simpa [firstPos, hw] using ih hvl

/-- Pandas min-rank over a descending sort equals one plus the number of
strictly greater non-null column values. -/
theorem pandasRankMinDesc_eq (vals : List ℚ) (v : ℚ) (hv : v ∈ vals) :
    pandasRankMinDesc vals v =
      vals.countP (fun w => decide (v < w)) + 1 := by
  have hperm : List.Perm (List.insertionSort qGE vals) vals :=
    List.perm_insertionSort qGE vals
  have hsorted : List.Sorted qGE (List.insertionSort qGE vals) :=
    List.sorted_insertionSort qGE vals
  have hmem : v ∈ List.insertionSort qGE vals := hperm.mem_iff.mpr hv
  unfold pandasRankMinDesc
  rw [firstPos_sorted_eq_countP v _ hsorted hmem,
    hperm.countP_eq]

/-- A row's strictly-greater test on the optional index cell. -/
def strictlyAbove (idx : Observation → Option ℚ) (v : ℚ)
    (r : Observation) : Bool :=
  ((idx r).map (fun w => decide (v < w))).getD false

/-- Counting strictly greater values in the non-null column equals counting
rows whose cell is non-null and strictly greater. -/
theorem countP_nonNullValues (idx : Observation → Option ℚ) (v : ℚ) :
    ∀ df : List Observation,
      (nonNullValues df idx).countP (fun w => decide (v < w)) =
        (df.filter (strictlyAbove idx v)).length := by
  intro df
  induction df with
  | nil => rfl
  | cons r df ih =>
    unfold nonNullValues at ih ⊢
    cases hr : idx r with
    | none =>
      simp [List.filterMap_cons, hr, ih, List.filter_cons, strictlyAbove]
    | some w =>
      by_cases hw : v < w
      · simp [List.filterMap_cons, hr, List.countP_cons, ih,
          List.filter_cons, strictlyAbove, hw]
      · simp [List.filterMap_cons, hr, List.countP_cons, ih,
          List.filter_cons, strictlyAbove, hw]

/-- The non-null column has exactly one value per ranked row. -/
theorem length_nonNullValues (idx : Observation → Option ℚ) :
    ∀ df : List Observation,
      (nonNullValues df idx).length = (rankedEntries df idx).length := by
  intro df
  induction df with
  | nil => rfl
  | cons r df ih =>
    unfold nonNullValues rankedEntries at ih ⊢
    cases hr : idx r with
    | none => simp [List.filterMap_cons, hr, ih, List.filter_cons]
    | some w => simp [List.filterMap_cons, hr, ih, List.filter_cons]

/-- A row's non-null cell contributes its value to the column. -/
theorem mem_nonNullValues {df : List Observation}
    {idx : Observation → Option ℚ} {row : Observation} {v : ℚ}
    (hrow : row ∈ df) (hv : idx row = some v) :
    v ∈ nonNullValues df idx :=
  List.mem_filterMap.mpr ⟨row, hrow, hv⟩

/-- The 2023 slice of the scenario data: Brazil 65, Chile 65, Peru 60. -/
def demo2023 : List Observation :=
  [mkObs "Brazil" "BRA" 2023 65, mkObs "Chile" "CHL" 2023 65,
   mkObs "Peru" "PER" 2023 60]

/-- C1: for every one-year slice and every one of the six index columns,
the rank assigned to a row equals 1 plus the number of rows of the slice
with a strictly greater non-null value of that index (competition/min
ranking — since `(country_name, year)` is unique within a slice, rows are
countries); any two rows with equal index values receive the same rank,
and a row holding the maximum value receives rank 1. -/
theorem C1_competition_ranking (df : List Observation)
    (idx : Observation → Option ℚ) (_hidx : idx ∈ indices)
    (row : Observation) (v : ℚ) (hrow : row ∈ df) (hv : idx row = some v) :
    rankColumn df idx row =
        some ((df.filter (strictlyAbove idx v)).length + 1) ∧
      (∀ r2 ∈ df, idx r2 = some v →
        rankColumn df idx r2 = rankColumn df idx row) ∧
      ((∀ r ∈ df, ∀ w : ℚ, idx r = some w → w ≤ v) →
        rankColumn df idx row = some 1) := by
  have hvm : v ∈ nonNullValues df idx := mem_nonNullValues hrow hv
  have hrank : rankColumn df idx row =
      some ((df.filter (strictlyAbove idx v)).length + 1) := by
    rw [rankColumn, hv, Option.map_some', pandasRankMinDesc_eq _ _ hvm,
      countP_nonNullValues]
  refine ⟨hrank, ?_, ?_⟩
  · intro r2 _ hv2
    rw [rankColumn, hv2, rankColumn, hv]
  · intro hmax
    rw [hrank]
    have hzero : (df.filter (strictlyAbove idx v)).length = 0 := by
      rw [← List.countP_eq_length_filter, List.countP_eq_zero]
      intro r hr
      unfold strictlyAbove
      cases hc : idx r with
      | none => simp
      | some w => simpa using hmax r hr w hc
    rw [hzero]

/-- Witness for C1 on the scenario slice: Brazil (value 65, tied with
Chile) is ranked as 1 plus the number of strictly greater rows, which is
rank 1. -/
theorem C1_competition_ranking_witness :
    rankColumn demo2023 Observation.indice_total
        (mkObs "Brazil" "BRA" 2023 65) =
      some ((demo2023.filter
        (strictlyAbove Observation.indice_total 65)).length + 1) ∧
    rankColumn demo2023 Observation.indice_total
        (mkObs "Brazil" "BRA" 2023 65) = some 1 := by
  have h := C1_competition_ranking demo2023 Observation.indice_total
    (by simp [indices]) (mkObs "Brazil" "BRA" 2023 65) 65
    (by simp [demo2023]) rfl
  refine ⟨h.1, ?_⟩
  rw [h.1]
  decide

/-- Counterexample to C2 as stated: in a slice holding a ranked Brazil row
and a fully null Fiji row, the reported `total_countries` is the slice
length 2, not the count of ranked entries 1. -/
theorem C2_counterexample :
    total_countries demoNullSlice ≠
      (rankedEntries demoNullSlice Observation.indice_total).length := by
  decide

/-- C2 (amended): `total_countries` equals the number of observations of
the slice with null-valued rows included (the total population), while
null index values are excluded from ranking candidacy; every assigned rank
is a positive integer at most the count of ranked entries, hence at most
`total_countries`. -/
theorem C2_total_countries_bounds (df : List Observation)
    (idx : Observation → Option ℚ) (_hidx : idx ∈ indices)
    (row : Observation) (v : ℚ) (hrow : row ∈ df) (hv : idx row = some v) :
    total_countries df = df.length ∧
      (rankedEntries df idx).length ≤ total_countries df ∧
      ∀ n : Nat, rankColumn df idx row = some n →
        1 ≤ n ∧ n ≤ (rankedEntries df idx).length ∧
          n ≤ total_countries df := by
  have hle : (rankedEntries df idx).length ≤ total_countries df :=
    List.length_filter_le _ df
  refine ⟨rfl, hle, ?_⟩
  intro n hn
  rw [rankColumn, hv, Option.map_some', Option.some_inj] at hn
  have hvm : v ∈ nonNullValues df idx := mem_nonNullValues hrow hv
  have hmemSorted : v ∈ List.insertionSort qGE (nonNullValues df idx) :=
    (List.perm_insertionSort qGE (nonNullValues df idx)).mem_iff.mpr hvm
  have hlt : firstPos v (List.insertionSort qGE (nonNullValues df idx)) <
      (nonNullValues df idx).length := by
    have := firstPos_lt_length v _ hmemSorted
    rwa [(List.perm_insertionSort qGE (nonNullValues df idx)).length_eq]
      at this
  have hform : n =
      firstPos v (List.insertionSort qGE (nonNullValues df idx)) + 1 := by
    rw [← hn]; rfl
  have hrank : n ≤ (nonNullValues df idx).length := by omega
  rw [length_nonNullValues] at hrank
  exact ⟨by omega, hrank, le_trans hrank hle⟩

/-- Witness for C2 (amended) on the null-containing slice: the Brazil row
receives rank 1, which is positive, at most the single ranked entry, and
at most the total population 2. -/
theorem C2_total_countries_bounds_witness :
    total_countries demoNullSlice = 2 ∧
      (rankedEntries demoNullSlice Observation.indice_total).length ≤
        total_countries demoNullSlice ∧
      (1 ≤ 1 ∧
        1 ≤ (rankedEntries demoNullSlice Observation.indice_total).length ∧
        1 ≤ total_countries demoNullSlice) := by
  have h := C2_total_countries_bounds demoNullSlice
    Observation.indice_total (by simp [indices])
    (mkObs "Brazil" "BRA" 2023 65) 65 (by simp [demoNullSlice]) rfl
  exact ⟨by decide, h.2.1, h.2.2 1 (by decide)⟩

/-- C3: when the filtered per-country series holds fewer than two
observations, both the value delta and the rank delta are `none`
(undefined), never `0` or a blank numeric default. -/
theorem C3_single_point_undefined (df : List Observation)
    (idx : Observation → Option ℚ) (db : List Observation) (sel : String)
    (h : df.length < 2) :
    value_delta df idx = none ∧ metrics_rank_delta db df sel idx = none := by
  have hnot : ¬ 1 < df.length := by omega
  constructor
  · simp [value_delta, hnot]
  · cases hL : df.getLast? with
    | none => simp [metrics_rank_delta, hL]
    | some lastRow =>
      cases hc : currentRank (sliceYear db lastRow.year) idx sel with
      | none => simp [metrics_rank_delta, hL, hc]
      | some cur => simp [metrics_rank_delta, hL, hc, hnot]

/-- Witness for C3: with only Brazil's single 2023 row in range, both
deltas are undefined. -/
theorem C3_single_point_undefined_witness :
    value_delta [mkObs "Brazil" "BRA" 2023 65]
        Observation.indice_total = none ∧
      metrics_rank_delta demoDb [mkObs "Brazil" "BRA" 2023 65] "Brazil"
        Observation.indice_total = none :=
  C3_single_point_undefined [mkObs "Brazil" "BRA" 2023 65]
    Observation.indice_total demoDb "Brazil" (by decide)

/-- C4: with at least two observations in the filtered series, the value
delta is the last value minus the second-to-last value and the rank delta
is the current-year rank minus the previous-year rank; a value increase
makes the value delta strictly positive and a numerically smaller current
rank makes the rank delta strictly negative (the inverse sign
convention). -/
theorem C4_delta_formulas (db df : List Observation) (sel : String)
    (idx : Observation → Option ℚ) (lastRow prevRow : Observation)
    (a b : ℚ) (cur prev : Nat)
    (hlen : 1 < df.length)
    (h1 : df.getLast? = some lastRow)
    (h2 : df.dropLast.getLast? = some prevRow)
    (ha : idx lastRow = some a) (hb : idx prevRow = some b)
    (hy : prevRow.year ≠ 0)
    (hcur : currentRank (sliceYear db lastRow.year) idx sel = some cur)
    (hprev : currentRank (sliceYear db prevRow.year) idx sel = some prev) :
    value_delta df idx = some (a - b) ∧
      metrics_rank_delta db df sel idx = some ((cur : Int) - (prev : Int)) ∧
      (b < a → 0 < a - b) ∧
      (cur < prev → (cur : Int) - (prev : Int) < 0) := by
  refine ⟨?_, ?_, fun hba => sub_pos.mpr hba, fun hcp => by omega⟩
  · simp [value_delta, hlen, h1, h2, ha, hb]
  · simp [metrics_rank_delta, h1, hcur, hlen, h2, hy, hprev]

/-- Witness for C4 on the scenario data: Brazil's value delta 2022→2023 is
65 − 62 = +3 (positive, improvement) and its rank delta is 1 − 2 = −1
(negative, improvement under the inverse convention). -/
theorem C4_delta_formulas_witness :
    value_delta demoBrazil Observation.indice_total = some (65 - 62) ∧
      metrics_rank_delta demoDb demoBrazil "Brazil"
        Observation.indice_total = some ((1 : Int) - (2 : Int)) ∧
      (0 : ℚ) < 65 - 62 ∧ ((1 : Int) - (2 : Int) < 0) := by
  have h := C4_delta_formulas demoDb demoBrazil "Brazil"
    Observation.indice_total (mkObs "Brazil" "BRA" 2023 65)
    (mkObs "Brazil" "BRA" 2022 62) 65 62 1 2
    (by decide) rfl rfl rfl rfl (by decide) (by decide) (by decide)
  exact ⟨h.1, h.2.1, h.2.2.1 (by norm_num), h.2.2.2 (by decide)⟩

/-- Counterexample to C5 as stated: with primary country Norway and
comparison list containing Norway again, the Dashboard page performs no
rejection — it issues the `get_country_data` fetch and then the comparison
fetch with the duplicated list `["Norway", "Sweden", "Norway"]`. -/
theorem C5_counterexample :
    "Norway" ∈ ["Sweden", "Norway"] ∧
      dashboard_fetch_calls (some "Norway") ["Sweden", "Norway"]
          (2015, 2023) =
        [(some ["Norway"], none),
         (some ["Norway", "Sweden", "Norway"],
          some (rangeYears 2015 2023))] := by
  exact ⟨by decide, rfl⟩

/-- C5 (amended): the assembly path never rejects a duplicated selection —
it proceeds to fetch with the primary country prepended; instead,
duplication is prevented upstream, because the sidebar's comparison
options exclude the selected primary country, so any comparison list drawn
from those options cannot contain the primary. -/
theorem C5_sidebar_prevents_duplicate (countries : List String)
    (sel : String) (comparison : List String)
    (hsub : ∀ c ∈ comparison,
      c ∈ sidebar_comparison_options countries (some sel)) :
    sel ∉ comparison := by
  intro hmem
  have h := hsub sel hmem
  rw [sidebar_comparison_options, List.mem_filter] at h
  simp at h

/-- Witness for C5 (amended): a comparison list drawn from the sidebar
options for primary Norway cannot contain Norway. -/
theorem C5_sidebar_prevents_duplicate_witness :
    "Norway" ∉ (["Sweden"] : List String) :=
  C5_sidebar_prevents_duplicate ["Norway", "Sweden", "Denmark"] "Norway"
    ["Sweden"] (by decide)

/-- C6: when the requested country is absent from a year slice, the rank
lookup signals an error (`none`, the `IndexError` of `.values[0]` on an
empty selection) — it is never a numeric result, in particular never
`some 0` and never a silent last rank. -/
theorem C6_absent_country_not_found (df : List Observation)
    (idx : Observation → Option ℚ) (sel : String)
    (h : ∀ r ∈ df, r.country_name ≠ sel) :
    currentRank df idx sel = none ∧
      ∀ n : Nat, currentRank df idx sel ≠ some n := by
  have hfil : df.filter (fun r => r.country_name = sel) = [] := by
    rw [List.filter_eq_nil_iff]
    intro r hr
    simpa using h r hr
  refine ⟨by simp [currentRank, hfil], ?_⟩
  intro n
  simp [currentRank, hfil]

/-- Witness for C6: Norway is absent from the 2023 scenario slice, so its
rank lookup is `none` and is no numeric rank. -/
theorem C6_absent_country_not_found_witness :
    currentRank demo2023 Observation.indice_total "Norway" = none ∧
      ∀ n : Nat,
        currentRank demo2023 Observation.indice_total "Norway" ≠ some n :=
  C6_absent_country_not_found demo2023 Observation.indice_total "Norway"
    (by decide)

/-- Counterexample to C7 as stated: when the store query fails,
`get_year_range` hands its caller the fixed default bounds `(2015, 2023)`
instead of an explicit failure — the very same numeric pair a healthy
store with data spanning 2015–2023 produces, so the caller cannot tell a
failure from genuine bounds. -/
theorem C7_counterexample :
    get_year_range_io .failing = ⟨true, (2015, 2023)⟩ ∧
      (get_year_range_io (.ok demoSpanDb)).bounds =
        (get_year_range_io .failing).bounds := by
  exact ⟨rfl, by decide⟩

/-- C7 (amended): on store failure or disconnection,
`load_complexity_data` surfaces a visible error together with an explicit
empty dataset — never fabricated rows — but `get_year_range` does not
propagate any failure: it shows the error and falls back to the fixed
default year bounds `(2015, 2023)`. -/
theorem C7_failure_behaviour (s : StoreState)
    (countries : Option (List String)) (years : Option (List Int))
    (h : s = StoreState.failing ∨ s = StoreState.disconnected) :
    load_complexity_data_io s countries years = ⟨true, []⟩ ∧
      get_year_range_io s = ⟨true, (2015, 2023)⟩ := by
  rcases h with h | h <;> subst h <;> exact ⟨rfl, rfl⟩

/-- Witness for C7 (amended): the failing store yields the error-marked
empty dataset and the default bounds. -/
theorem C7_failure_behaviour_witness :
    load_complexity_data_io StoreState.failing none none = ⟨true, []⟩ ∧
      get_year_range_io StoreState.failing = ⟨true, (2015, 2023)⟩ :=
  C7_failure_behaviour StoreState.failing none none (Or.inl rfl)

/-- C8: a country with no observation at the radar chart's selected year
contributes no trace at all, while a country whose observation exists
(even with all-zero index values) contributes one — absence is
representable distinctly from a zero-valued observation. -/
theorem C8_radar_absent_vs_zero (df : List Observation) (cs : List String)
    (y : Int) (c : String) :
    ((∀ r ∈ df, ¬(r.country_name = c ∧ r.year = y)) →
      ∀ t ∈ radar_traces df cs y, t.country ≠ c) ∧
    (c ∈ cs →
      df.filter (fun r => r.country_name = c ∧ r.year = y) ≠ [] →
      ∃ t ∈ radar_traces df cs y, t.country = c) := by
  constructor
  · intro habs t ht
    unfold radar_traces at ht
    rw [List.mem_filterMap] at ht
    obtain ⟨c2, hc2, heq⟩ := ht
    cases hfil : df.filter (fun r => r.country_name = c2 ∧ r.year = y) with
    | nil =>
      rw [hfil] at heq
      simp at heq
    | cons row rest =>
      rw [hfil] at heq
      have heq2 : some (RadarTrace.mk c2
          ((radarIndices.map (fun idx => idx row)) ++
            (radarIndices.map (fun idx => idx row)).take 1)) = some t := heq
      obtain rfl := Option.some_inj.mp heq2
      intro hcc
      have hrow : row ∈ df.filter
          (fun r => r.country_name = c2 ∧ r.year = y) :=
        hfil ▸ List.mem_cons_self row rest
      have hmf := List.mem_filter.mp hrow
      have hpred : row.country_name = c2 ∧ row.year = y := by
        simpa using hmf.2
      exact habs row hmf.1 ⟨hcc ▸ hpred.1, hpred.2⟩
  · intro hcs hfil
    cases hfil2 : df.filter (fun r => r.country_name = c ∧ r.year = y) with
    | nil => exact absurd hfil2 hfil
    | cons row rest =>
      refine ⟨RadarTrace.mk c
        ((radarIndices.map (fun idx => idx row)) ++
          (radarIndices.map (fun idx => idx row)).take 1), ?_, rfl⟩
      unfold radar_traces
      rw [List.mem_filterMap]
      refine ⟨c, hcs, ?_⟩
      rw [hfil2]
      rfl

/-- Witness for C8 on the radar slice: Fiji has no 2023 row and appears in
no trace; Chad's 2023 observation is all-zero yet Chad does appear in a
trace. -/
theorem C8_radar_absent_vs_zero_witness :
    (∀ t ∈ radar_traces demoRadarDf ["Brazil", "Chad", "Fiji"] 2023,
      t.country ≠ "Fiji") ∧
    (∃ t ∈ radar_traces demoRadarDf ["Brazil", "Chad", "Fiji"] 2023,
      t.country = "Chad") := by
  have h := C8_radar_absent_vs_zero demoRadarDf ["Brazil", "Chad", "Fiji"]
    2023 "Fiji"
  have h2 := C8_radar_absent_vs_zero demoRadarDf ["Brazil", "Chad", "Fiji"]
    2023 "Chad"
  exact ⟨h.1 (by decide), h2.2 (by decide) (by decide)⟩

/-- C9: every dataset returned by the fetch is sorted by
`(country_name, year)` ascending, and therefore the per-country partitions
of any assembled comparison dataset are in ascending year order. -/
theorem C9_fetch_ordering (db : List Observation)
    (countries : Option (List String)) (years : Option (List Int)) :
    List.Sorted obsKeyLE (load_complexity_data db countries years) ∧
      ∀ c : String,
        ((load_complexity_data db countries years).filter
            (fun r => r.country_name = c)).Pairwise
          (fun a b => a.year ≤ b.year) := by
  have hsorted :
      List.Sorted obsKeyLE (load_complexity_data db countries years) :=
    List.sorted_insertionSort obsKeyLE _
  refine ⟨hsorted, ?_⟩
  intro c
  have hp : ((load_complexity_data db countries years).filter
      (fun r => r.country_name = c)).Pairwise obsKeyLE :=
    List.Pairwise.filter _ hsorted
  refine List.Pairwise.imp_of_mem ?_ hp
  intro a b ha hb hab
  have hac : a.country_name = c := by
    simpa using (List.mem_filter.mp ha).2
  have hbc : b.country_name = c := by
    simpa using (List.mem_filter.mp hb).2
  rcases hab with h | ⟨_, hy⟩
  · rw [hac, hbc] at h
    exact absurd h (lt_irrefl _)
  · exact hy

/-- C10: an empty country list (or an empty year tuple) is falsy in
Python, so `load_complexity_data` applies no filter for it — the result is
identical to passing no filter at all, never the empty dataset. -/
theorem C10_empty_filter_means_no_filter (db : List Observation) :
    (∀ years, load_complexity_data db (some []) years =
      load_complexity_data db none years) ∧
    (∀ countries, load_complexity_data db countries (some []) =
      load_complexity_data db countries none) := by
  constructor
  · intro years
    rfl
  · intro countries
    rfl

end ICI
